import Mathlib

/-!
Shallow embedding of the Windows credential-store backend
(src/src/windows.rs of keyring-rs) and proofs about its
identity model, attribute validation, secret codec, vault adapter
and error translation.

Machine strings are modelled as Lean String (a sequence of Unicode
scalar values, matching Rust String); byte and UTF-16 buffers are
List Nat with the relevant bounds tracked in the lemmas; the Rust
len() of a string (its UTF-8 byte count) is String.utf8ByteSize.
The native vault (the wincred API) is an external collaborator: each
adapter operation takes the platform outcome of its single vault call
as an explicit argument and also returns the list of vault calls it
issued, so that call/no-call and free-exactly-once properties are
expressible.
-/

set_option maxRecDepth 40000

namespace Keyring

/-! ### Constants

Numeric limits from wincred.h and status codes from winerror.h, as
re-exported by the winapi crate that windows.rs imports. -/

def CRED_MAX_USERNAME_LENGTH : Nat := 513

def CRED_MAX_GENERIC_TARGET_NAME_LENGTH : Nat := 32767

def CRED_MAX_STRING_LENGTH : Nat := 256

def CRED_MAX_CREDENTIAL_BLOB_SIZE : Nat := 2560

def CRED_TYPE_GENERIC : Nat := 1

def CRED_PERSIST_ENTERPRISE : Nat := 3

def ERROR_NOT_FOUND : Nat := 1168

def ERROR_NO_SUCH_LOGON_SESSION : Nat := 1312

def ERROR_BAD_USERNAME : Nat := 2202

def ERROR_INVALID_FLAGS : Nat := 1004

def ERROR_INVALID_PARAMETER : Nat := 87

/-- Modelled from the spec: the portable error taxonomy of section 7.
The defining module (error.rs) is not among the sources; the variants
and payloads follow the spec and the uses in windows.rs.  The causes
wrapped by NoStorageAccess and PlatformFailure are the raw platform
status codes, matching the wrap helper in windows.rs. -/
inductive ErrorCode where
  | Invalid (field reason : String)
  | TooLong (field : String) (limit : Nat)
  | BadEncoding (bytes : List Nat)
  | NoEntry
  | NoStorageAccess (cause : Nat)
  | PlatformFailure (cause : Nat)
  deriving DecidableEq

deriving instance DecidableEq for Except

/-- The identity model: WinCredential from windows.rs. -/
structure WinCredential where
  username : String
  target_name : String
  target_alias : String
  comment : String
  deriving DecidableEq

/-- Modelled from the spec: the crate version baked in through the
CARGO_PKG_VERSION build-time environment variable; the manifest is not
among the sources.  The spec only requires the comment to be a
fixed-format provenance string naming the client and the
(service, user) pair, which does not depend on this value. -/
def CARGO_PKG_VERSION : String := "0.10.1"

/-- A single-quote character as a string, used by the metadata format. -/
def squote : String := String.mk [Char.ofNat 39]

/-- The provenance string built by new_with_target:
keyring-rs v{VERSION} for service {service}, user {user}, with the
service and user names in single quotes. -/
def metadata (service user : String) : String :=
  "keyring-rs v" ++ CARGO_PKG_VERSION ++ " for service " ++ squote ++ service ++ squote
    ++ ", user " ++ squote ++ user ++ squote

/-- validate_attributes from windows.rs: the early-return chain of
size checks, in source order. -/
def validate_attributes (self : WinCredential) (password : String) : Except ErrorCode Unit :=
  if self.username.utf8ByteSize > CRED_MAX_USERNAME_LENGTH then
    .error (.TooLong "username" CRED_MAX_USERNAME_LENGTH)
  else if self.target_name.isEmpty then
    .error (.Invalid "target" "cannot be empty")
  else if self.target_name.utf8ByteSize > CRED_MAX_GENERIC_TARGET_NAME_LENGTH then
    .error (.TooLong "target" CRED_MAX_GENERIC_TARGET_NAME_LENGTH)
  else if self.target_alias.utf8ByteSize > CRED_MAX_STRING_LENGTH then
    .error (.TooLong "target alias" CRED_MAX_STRING_LENGTH)
  else if self.comment.utf8ByteSize > CRED_MAX_STRING_LENGTH then
    .error (.TooLong "comment" CRED_MAX_STRING_LENGTH)
  else if password.utf8ByteSize > CRED_MAX_CREDENTIAL_BLOB_SIZE then
    .error (.TooLong "password" CRED_MAX_CREDENTIAL_BLOB_SIZE)
  else
    .ok ()

/-- new_with_target from windows.rs.  Note that the explicit
empty-target check in the source is commented out; an empty supplied
target is only caught by validate_attributes. -/
def new_with_target (target : Option String) (service user : String) :
    Except ErrorCode WinCredential :=
  let credential : WinCredential :=
    match target with
    | some target =>
      { username := user
        target_name := target
        target_alias := ""
        comment := metadata service user }
    | none =>
      { username := user
        target_name := user ++ "." ++ service
        target_alias := ""
        comment := metadata service user }
  match validate_attributes credential "" with
  | .error e => .error e
  | .ok _ => .ok credential

/-! ### Secret codec -/

/-- UTF-16 code units of one Unicode scalar value, as produced by the
encode_utf16 iterator of Rust str. -/
def utf16EncodeChar (c : Char) : List Nat :=
  if c.toNat < 0x10000 then [c.toNat]
  else
    [0xD800 + (c.toNat - 0x10000) / 0x400, 0xDC00 + (c.toNat - 0x10000) % 0x400]

/-- to_wstr from windows.rs: UTF-16 units with a terminating zero unit. -/
def to_wstr (s : String) : List Nat :=
  s.data.flatMap utf16EncodeChar ++ [0]

/-- to_wstr_no_null from windows.rs: UTF-16 units, no terminator. -/
def to_wstr_no_null (s : String) : List Nat :=
  s.data.flatMap utf16EncodeChar

/-- LittleEndian write_u16_into: each 16-bit unit as two bytes, low
byte first. -/
def write_u16_into (units : List Nat) : List Nat :=
  units.flatMap fun u => [u % 256, u / 256 % 256]

/-- LittleEndian read_u16_into: consecutive byte pairs as 16-bit
units, low byte first.  Only applied to even-length blobs. -/
def read_u16_into : List Nat → List Nat
  | b0 :: b1 :: rest => (b0 + 256 * b1) :: read_u16_into rest
  | _ => []

/-- Strict UTF-16 decoding, as String from_utf16 of Rust: a surrogate
unit must be a high surrogate immediately followed by a low surrogate;
anything else fails. -/
def from_utf16 : List Nat → Option (List Char)
  | [] => some []
  | [u] =>
    if u < 0xD800 ∨ (0xE000 ≤ u ∧ u < 0x10000) then some [Char.ofNat u]
    else none
  | u :: u2 :: rest =>
    if u < 0xD800 ∨ (0xE000 ≤ u ∧ u < 0x10000) then
      match from_utf16 (u2 :: rest) with
      | some cs => some (Char.ofNat u :: cs)
      | none => none
    else if (0xD800 ≤ u ∧ u < 0xDC00) ∧ (0xDC00 ≤ u2 ∧ u2 < 0xE000) then
      match from_utf16 rest with
      | some cs =>
        some (Char.ofNat (0x10000 + (u - 0xD800) * 0x400 + (u2 - 0xDC00)) :: cs)
      | none => none
    else none

/-- Lossy UTF-16 decoding, as String from_utf16_lossy of Rust: each
unpaired surrogate becomes the U+FFFD replacement character. -/
def from_utf16_lossy : List Nat → List Char
  | [] => []
  | [u] =>
    if u < 0xD800 ∨ (0xE000 ≤ u ∧ u < 0x10000) then [Char.ofNat u]
    else [Char.ofNat 0xFFFD]
  | u :: u2 :: rest =>
    if u < 0xD800 ∨ (0xE000 ≤ u ∧ u < 0x10000) then
      Char.ofNat u :: from_utf16_lossy (u2 :: rest)
    else if 0xD800 ≤ u ∧ u < 0xDC00 then
      if 0xDC00 ≤ u2 ∧ u2 < 0xE000 then
        Char.ofNat (0x10000 + (u - 0xD800) * 0x400 + (u2 - 0xDC00)) :: from_utf16_lossy rest
      else
        Char.ofNat 0xFFFD :: from_utf16_lossy (u2 :: rest)
    else
      Char.ofNat 0xFFFD :: from_utf16_lossy (u2 :: rest)

/-! ### Native records and the vault adapter -/

/-- CREDENTIALW from wincred.h, restricted to the fields windows.rs
reads or writes.  A wide-string pointer field is none when null,
otherwise the buffer contents up to (not including) any terminator
handling, which from_wstr performs itself.  LastWritten and the
attribute pointer are ignored by the source logic and omitted; the
source field Type is renamed CredType (Type is a Lean keyword);
CredentialBlobSize is the length of CredentialBlob. -/
structure CREDENTIALW where
  Flags : Nat
  CredType : Nat
  TargetName : Option (List Nat)
  Comment : Option (List Nat)
  CredentialBlob : List Nat
  Persist : Nat
  AttributeCount : Nat
  TargetAlias : Option (List Nat)
  UserName : Option (List Nat)
  deriving DecidableEq

/-- The encoded secret blob built inside set_password (lines 46-48 of
windows.rs): UTF-16 units without terminator, serialized little
endian. -/
def password_blob (password : String) : List Nat :=
  write_u16_into (to_wstr_no_null password)

/-- extract_password from windows.rs: reject odd-length blobs, then
strictly decode the little-endian 16-bit units; on either failure the
error carries the original bytes. -/
def extract_password (credential : CREDENTIALW) : Except ErrorCode String :=
  let blob := credential.CredentialBlob
  if blob.length % 2 ≠ 0 then
    .error (.BadEncoding blob)
  else
    match from_utf16 (read_u16_into blob) with
    | some cs => .ok (String.mk cs)
    | none => .error (.BadEncoding blob)

/-- from_wstr from windows.rs: a null pointer becomes the empty
string; otherwise the units before the first zero are decoded
lossily. -/
def from_wstr (ws : Option (List Nat)) : String :=
  match ws with
  | none => ""
  | some buf => String.mk (from_utf16_lossy (buf.takeWhile fun u => u ≠ 0))

/-- extract_credential from windows.rs: rebuild all four identity
fields from the native record; always succeeds. -/
def extract_credential (w_credential : CREDENTIALW) : Except ErrorCode WinCredential :=
  .ok
    { username := from_wstr w_credential.UserName
      target_name := from_wstr w_credential.TargetName
      target_alias := from_wstr w_credential.TargetAlias
      comment := from_wstr w_credential.Comment }

/-- decode_error from windows.rs, with the GetLastError value passed
explicitly. -/
def decode_error (last_error : Nat) : ErrorCode :=
  if last_error = ERROR_NOT_FOUND then .NoEntry
  else if last_error = ERROR_NO_SUCH_LOGON_SESSION then
    .NoStorageAccess ERROR_NO_SUCH_LOGON_SESSION
  else .PlatformFailure last_error

/-- The Display rendering of the wrapped platform code (impl Display
for Error in windows.rs): named constants get fixed strings, unknown
codes render their numeric value. -/
def error_message (code : Nat) : String :=
  if code = ERROR_NO_SUCH_LOGON_SESSION then "Windows ERROR_NO_SUCH_LOGON_SESSION"
  else if code = ERROR_NOT_FOUND then "Windows ERROR_NOT_FOUND"
  else if code = ERROR_BAD_USERNAME then "Windows ERROR_BAD_USERNAME"
  else if code = ERROR_INVALID_FLAGS then "Windows ERROR_INVALID_FLAGS"
  else if code = ERROR_INVALID_PARAMETER then "Windows ERROR_INVALID_PARAMETER"
  else "Windows error code " ++ toString code

/-- One native vault call issued by the adapter, with the argument
that identifies it. -/
inductive VaultCall where
  | credWrite (credential : CREDENTIALW)
  | credRead (target_name : List Nat)
  | credDelete (target_name : List Nat)
  | credFree
  deriving DecidableEq

/-- Number of CredFree calls in a call trace. -/
def free_count (calls : List VaultCall) : Nat :=
  calls.countP fun c =>
    match c with
    | VaultCall.credFree => true
    | _ => false

/-- set_password from windows.rs.  write_result is the platform
outcome of the single CredWriteW call: none for success, some code for
failure with that last-error code.  The second component is the trace
of vault calls issued. -/
def set_password (self : WinCredential) (password : String) (write_result : Option Nat) :
    Except ErrorCode Unit × List VaultCall :=
  match validate_attributes self password with
  | .error e => (.error e, [])
  | .ok _ =>
    let credential : CREDENTIALW :=
      { Flags := 0
        CredType := CRED_TYPE_GENERIC
        TargetName := some (to_wstr self.target_name)
        Comment := some (to_wstr self.comment)
        CredentialBlob := password_blob password
        Persist := CRED_PERSIST_ENTERPRISE
        AttributeCount := 0
        TargetAlias := some (to_wstr self.target_alias)
        UserName := some (to_wstr self.username) }
    match write_result with
    | some code => (.error (decode_error code), [.credWrite credential])
    | none => (.ok (), [.credWrite credential])

/-- delete_password from windows.rs, with the CredDeleteW outcome
passed explicitly as in set_password. -/
def delete_password (self : WinCredential) (delete_result : Option Nat) :
    Except ErrorCode Unit × List VaultCall :=
  match validate_attributes self "" with
  | .error e => (.error e, [])
  | .ok _ =>
    match delete_result with
    | some code => (.error (decode_error code), [.credDelete (to_wstr self.target_name)])
    | none => (.ok (), [.credDelete (to_wstr self.target_name)])

/-- extract_from_platform from windows.rs.  read_result is the
CredReadW outcome: on failure the last-error code, on success the
allocated record.  On success the extractor runs and then CredFree is
called, whatever the extractor returned. -/
def extract_from_platform {T : Type} (self : WinCredential)
    (f : CREDENTIALW → Except ErrorCode T) (read_result : Except Nat CREDENTIALW) :
    Except ErrorCode T × List VaultCall :=
  match validate_attributes self "" with
  | .error e => (.error e, [])
  | .ok _ =>
    match read_result with
    | .error code => (.error (decode_error code), [.credRead (to_wstr self.target_name)])
    | .ok w_credential =>
      (f w_credential, [.credRead (to_wstr self.target_name), .credFree])

/-- get_password from windows.rs. -/
def get_password (self : WinCredential) (read_result : Except Nat CREDENTIALW) :
    Except ErrorCode String × List VaultCall :=
  extract_from_platform self extract_password read_result

/-- get_credential from windows.rs. -/
def get_credential (self : WinCredential) (read_result : Except Nat CREDENTIALW) :
    Except ErrorCode WinCredential × List VaultCall :=
  extract_from_platform self extract_credential read_result

/-- make_platform_credential from the tests in windows.rs: a native
record holding just a blob, every pointer null. -/
def make_platform_credential (blob : List Nat) : CREDENTIALW :=
  { Flags := 0
    CredType := CRED_TYPE_GENERIC
    TargetName := none
    Comment := none
    CredentialBlob := blob
    Persist := CRED_PERSIST_ENTERPRISE
    AttributeCount := 0
    TargetAlias := none
    UserName := none }

/-- Observer: is this operation result the Invalid error. -/
def isInvalidResult {T : Type} : Except ErrorCode T → Bool
  | .error (.Invalid _ _) => true
  | _ => false

/-- Observer: is this operation result a success. -/
def isOkResult {T : Type} : Except ErrorCode T → Bool
  | .ok _ => true
  | _ => false

/-- A string of n ASCII bytes, for exercising the size limits. -/
def longA (n : Nat) : String := String.mk (List.replicate n 'a')

end Keyring

namespace Keyring

/-! ### Codec lemmas -/

theorem utf16EncodeChar_lt (c : Char) : ∀ u ∈ utf16EncodeChar c, u < 0x10000 := by
  intro u hu
  have hv : Nat.isValidChar c.toNat := c.valid
  rcases hv with h | ⟨h1, h2⟩ <;>
    · unfold utf16EncodeChar at hu
      split at hu <;> simp at hu <;> omega

theorem write_u16_into_length (units : List Nat) :
    (write_u16_into units).length = 2 * units.length := by
  induction units with
  | nil => rfl
  | cons u us ih => simp [write_u16_into, List.flatMap_cons] at ih ⊢; omega

theorem read_write_u16 (units : List Nat) (h : ∀ u ∈ units, u < 0x10000) :
    read_u16_into (write_u16_into units) = units := by
  induction units with
  | nil => rfl
  | cons u us ih =>
    have hu : u < 0x10000 := h u (by simp)
    have hrest : ∀ v ∈ us, v < 0x10000 := fun v hv => h v (by simp [hv])
    simp only [write_u16_into, List.flatMap_cons]
    show read_u16_into (u % 256 :: u / 256 % 256 :: write_u16_into us) = u :: us
    rw [read_u16_into, ih hrest]
    congr 1
    omega

theorem from_utf16_encode_cons (c : Char) (rest : List Nat) (cs : List Char)
    (h : from_utf16 rest = some cs) :
    from_utf16 (utf16EncodeChar c ++ rest) = some (c :: cs) := by
  have hv : Nat.isValidChar c.toNat := c.valid
  by_cases hlt : c.toNat < 0x10000
  · have hcond : c.toNat < 0xD800 ∨ (0xE000 ≤ c.toNat ∧ c.toNat < 0x10000) := by
      rcases hv with h1 | ⟨h1, h2⟩ <;> omega
    rw [utf16EncodeChar, if_pos hlt]
    cases rest with
    | nil =>
      have hcs : cs = [] := by simpa [from_utf16] using h.symm
      subst hcs
      show from_utf16 [c.toNat] = some [c]
      rw [from_utf16, if_pos hcond, Char.ofNat_toNat]
    | cons r rs =>
      show from_utf16 (c.toNat :: r :: rs) = some (c :: cs)
      rw [from_utf16, if_pos hcond, h]
      simp only [Char.ofNat_toNat]
  · have hv2 : c.toNat < 0x110000 := by rcases hv with h1 | ⟨h1, h2⟩ <;> omega
    rw [utf16EncodeChar, if_neg hlt]
    set v := c.toNat - 0x10000 with hvdef
    have hvlt : v < 0x100000 := by omega
    have hhi1 : ¬(0xD800 + v / 0x400 < 0xD800 ∨
        (0xE000 ≤ 0xD800 + v / 0x400 ∧ 0xD800 + v / 0x400 < 0x10000)) := by omega
    have hhi2 : 0xD800 ≤ 0xD800 + v / 0x400 ∧ 0xD800 + v / 0x400 < 0xDC00 := by omega
    have hlo : 0xDC00 ≤ 0xDC00 + v % 0x400 ∧ 0xDC00 + v % 0x400 < 0xE000 := by omega
    show from_utf16 ((0xD800 + v / 0x400) :: (0xDC00 + v % 0x400) :: rest) = some (c :: cs)
    rw [from_utf16, if_neg hhi1, if_pos ⟨hhi2, hlo⟩, h]
    have harith : 0x10000 + (0xD800 + v / 0x400 - 0xD800) * 0x400 +
        (0xDC00 + v % 0x400 - 0xDC00) = c.toNat := by omega
    simp only [harith, Char.ofNat_toNat]

theorem from_utf16_encode (cs : List Char) :
    from_utf16 (cs.flatMap utf16EncodeChar) = some cs := by
  induction cs with
  | nil => rfl
  | cons c rest ih =>
    rw [List.flatMap_cons]
    exact from_utf16_encode_cons c _ rest ih

theorem from_utf16_lossy_agrees (units : List Nat) (cs : List Char)
    (h : from_utf16 units = some cs) : from_utf16_lossy units = cs := by
  induction units using from_utf16.induct generalizing cs with
  | case1 =>
    injection h
  | case2 u hcond =>
    rw [from_utf16, if_pos hcond] at h
    injection h with h
    rw [from_utf16_lossy, if_pos hcond, ← h]
  | case3 u hcond =>
    rw [from_utf16, if_neg hcond] at h
    cases h
  | case4 u u2 rest hcond cs2 hrec ih =>
    rw [from_utf16, if_pos hcond, hrec] at h
    injection h with h
    rw [from_utf16_lossy, if_pos hcond, ih cs2 hrec, ← h]
  | case5 u u2 rest hcond hrec ih =>
    rw [from_utf16, if_pos hcond, hrec] at h
    cases h
  | case6 u u2 rest hcond hpair cs2 hrec ih =>
    rw [from_utf16, if_neg hcond, if_pos hpair, hrec] at h
    injection h with h
    rw [from_utf16_lossy, if_neg hcond, if_pos hpair.1, if_pos hpair.2, ih cs2 hrec, ← h]
  | case7 u u2 rest hcond hpair hrec ih =>
    rw [from_utf16, if_neg hcond, if_pos hpair, hrec] at h
    cases h
  | case8 u u2 rest hcond hpair =>
    rw [from_utf16, if_neg hcond, if_neg hpair] at h
    cases h

/-! ### Size helper lemmas -/

theorem longA_utf8ByteSize (n : Nat) : (longA n).utf8ByteSize = n := by
  show String.utf8ByteSize.go (List.replicate n 'a') = n
  induction n with
  | zero => rfl
  | succ k ih =>
    rw [List.replicate_succ]
    show String.utf8ByteSize.go (List.replicate k 'a') + Char.utf8Size 'a' = k + 1
    rw [ih]
    rfl

theorem longA_isEmpty (n : Nat) (h : 0 < n) : (longA n).isEmpty = false := by
  cases heq : (longA n).isEmpty
  · rfl
  · exfalso
    have h2 := (String.isEmpty_iff _).mp heq
    have h3 := congrArg String.data h2
    simp only [longA] at h3
    rw [List.replicate_eq_nil_iff] at h3
    omega

theorem append_dot_isEmpty (user service : String) :
    (user ++ "." ++ service).isEmpty = false := by
  cases heq : (user ++ "." ++ service).isEmpty
  · rfl
  · exfalso
    have h2 := (String.isEmpty_iff _).mp heq
    have h3 := congrArg String.data h2
    simp [String.data_append] at h3

/-! ### Validator chain lemmas: the first failing rule, in source order -/

theorem validate_username_too_long (cred : WinCredential) (password : String)
    (h : cred.username.utf8ByteSize > CRED_MAX_USERNAME_LENGTH) :
    validate_attributes cred password =
      .error (.TooLong "username" CRED_MAX_USERNAME_LENGTH) := by
  rw [validate_attributes, if_pos h]

theorem validate_empty_target (cred : WinCredential) (password : String)
    (h1 : cred.username.utf8ByteSize ≤ CRED_MAX_USERNAME_LENGTH)
    (h2 : cred.target_name.isEmpty = true) :
    validate_attributes cred password = .error (.Invalid "target" "cannot be empty") := by
  rw [validate_attributes, if_neg (by omega), if_pos h2]

theorem validate_target_too_long (cred : WinCredential) (password : String)
    (h1 : cred.username.utf8ByteSize ≤ CRED_MAX_USERNAME_LENGTH)
    (h2 : cred.target_name.isEmpty = false)
    (h3 : cred.target_name.utf8ByteSize > CRED_MAX_GENERIC_TARGET_NAME_LENGTH) :
    validate_attributes cred password =
      .error (.TooLong "target" CRED_MAX_GENERIC_TARGET_NAME_LENGTH) := by
  rw [validate_attributes, if_neg (by omega), if_neg (by simp [h2]), if_pos h3]

theorem validate_alias_too_long (cred : WinCredential) (password : String)
    (h1 : cred.username.utf8ByteSize ≤ CRED_MAX_USERNAME_LENGTH)
    (h2 : cred.target_name.isEmpty = false)
    (h3 : cred.target_name.utf8ByteSize ≤ CRED_MAX_GENERIC_TARGET_NAME_LENGTH)
    (h4 : cred.target_alias.utf8ByteSize > CRED_MAX_STRING_LENGTH) :
    validate_attributes cred password =
      .error (.TooLong "target alias" CRED_MAX_STRING_LENGTH) := by
  rw [validate_attributes, if_neg (by omega), if_neg (by simp [h2]), if_neg (by omega),
    if_pos h4]

theorem validate_comment_too_long (cred : WinCredential) (password : String)
    (h1 : cred.username.utf8ByteSize ≤ CRED_MAX_USERNAME_LENGTH)
    (h2 : cred.target_name.isEmpty = false)
    (h3 : cred.target_name.utf8ByteSize ≤ CRED_MAX_GENERIC_TARGET_NAME_LENGTH)
    (h4 : cred.target_alias.utf8ByteSize ≤ CRED_MAX_STRING_LENGTH)
    (h5 : cred.comment.utf8ByteSize > CRED_MAX_STRING_LENGTH) :
    validate_attributes cred password = .error (.TooLong "comment" CRED_MAX_STRING_LENGTH) := by
  rw [validate_attributes, if_neg (by omega), if_neg (by simp [h2]), if_neg (by omega),
    if_neg (by omega), if_pos h5]

theorem validate_password_too_long (cred : WinCredential) (password : String)
    (h1 : cred.username.utf8ByteSize ≤ CRED_MAX_USERNAME_LENGTH)
    (h2 : cred.target_name.isEmpty = false)
    (h3 : cred.target_name.utf8ByteSize ≤ CRED_MAX_GENERIC_TARGET_NAME_LENGTH)
    (h4 : cred.target_alias.utf8ByteSize ≤ CRED_MAX_STRING_LENGTH)
    (h5 : cred.comment.utf8ByteSize ≤ CRED_MAX_STRING_LENGTH)
    (h6 : password.utf8ByteSize > CRED_MAX_CREDENTIAL_BLOB_SIZE) :
    validate_attributes cred password =
      .error (.TooLong "password" CRED_MAX_CREDENTIAL_BLOB_SIZE) := by
  rw [validate_attributes, if_neg (by omega), if_neg (by simp [h2]), if_neg (by omega),
    if_neg (by omega), if_neg (by omega), if_pos h6]

theorem validate_ok (cred : WinCredential) (password : String)
    (h1 : cred.username.utf8ByteSize ≤ CRED_MAX_USERNAME_LENGTH)
    (h2 : cred.target_name.isEmpty = false)
    (h3 : cred.target_name.utf8ByteSize ≤ CRED_MAX_GENERIC_TARGET_NAME_LENGTH)
    (h4 : cred.target_alias.utf8ByteSize ≤ CRED_MAX_STRING_LENGTH)
    (h5 : cred.comment.utf8ByteSize ≤ CRED_MAX_STRING_LENGTH)
    (h6 : password.utf8ByteSize ≤ CRED_MAX_CREDENTIAL_BLOB_SIZE) :
    validate_attributes cred password = .ok () := by
  rw [validate_attributes, if_neg (by omega), if_neg (by simp [h2]), if_neg (by omega),
    if_neg (by omega), if_neg (by omega), if_neg (by omega)]

/-! ### Builder and adapter unfolding lemmas -/

theorem new_with_target_some_eq (target service user : String) :
    new_with_target (some target) service user =
      (match validate_attributes ⟨user, target, "", metadata service user⟩ "" with
       | .error e => .error e
       | .ok _ => .ok ⟨user, target, "", metadata service user⟩) := rfl

theorem new_with_target_none_eq (service user : String) :
    new_with_target none service user =
      (match validate_attributes
          ⟨user, user ++ "." ++ service, "", metadata service user⟩ "" with
       | .error e => .error e
       | .ok _ => .ok ⟨user, user ++ "." ++ service, "", metadata service user⟩) := rfl

theorem set_password_gated (cred : WinCredential) (password : String) (e : ErrorCode)
    (h : validate_attributes cred password = .error e) :
    ∀ write_result, set_password cred password write_result = (.error e, []) := by
  intro write_result
  rw [set_password, h]

theorem delete_password_gated (cred : WinCredential) (e : ErrorCode)
    (h : validate_attributes cred "" = .error e) :
    ∀ delete_result, delete_password cred delete_result = (.error e, []) := by
  intro delete_result
  rw [delete_password.eq_def, h]

theorem get_password_gated (cred : WinCredential) (e : ErrorCode)
    (h : validate_attributes cred "" = .error e) :
    ∀ read_result, get_password cred read_result = (.error e, []) := by
  intro read_result
  rw [get_password, extract_from_platform.eq_def, h]

theorem get_credential_gated (cred : WinCredential) (e : ErrorCode)
    (h : validate_attributes cred "" = .error e) :
    ∀ read_result, get_credential cred read_result = (.error e, []) := by
  intro read_result
  rw [get_credential, extract_from_platform.eq_def, h]

theorem extract_from_platform_ok {T : Type} (cred : WinCredential)
    (f : CREDENTIALW → Except ErrorCode T) (w : CREDENTIALW)
    (h : validate_attributes cred "" = .ok ()) :
    extract_from_platform cred f (.ok w) =
      (f w, [.credRead (to_wstr cred.target_name), .credFree]) := by
  rw [extract_from_platform.eq_def, h]

theorem extract_from_platform_err {T : Type} (cred : WinCredential)
    (f : CREDENTIALW → Except ErrorCode T) (code : Nat)
    (h : validate_attributes cred "" = .ok ()) :
    extract_from_platform cred f (.error code) =
      (.error (decode_error code), [.credRead (to_wstr cred.target_name)]) := by
  rw [extract_from_platform.eq_def, h]

end Keyring

namespace Keyring

/-! ### Claim theorems -/

/-- C1: for every string s, decoding the encoding of s returns s.
encode converts s to its 16-bit code units without a terminating unit
and serializes each unit as two little-endian bytes, so the blob has
length 2 times the unit count, and extract_password inverts this on a
record holding that blob. -/
theorem set_get_roundtrip (s : String) :
    (password_blob s).length = 2 * (to_wstr_no_null s).length ∧
    extract_password (make_platform_credential (password_blob s)) = .ok s := by
  have hlen := write_u16_into_length (to_wstr_no_null s)
  refine ⟨hlen, ?_⟩
  have hbound : ∀ u ∈ to_wstr_no_null s, u < 0x10000 := by
    intro u hu
    rw [to_wstr_no_null, List.mem_flatMap] at hu
    obtain ⟨c, _, hc⟩ := hu
    exact utf16EncodeChar_lt c u hc
  have heven : (password_blob s).length % 2 = 0 := by
    rw [password_blob, hlen]; omega
  rw [extract_password]
  simp only [make_platform_credential]
  rw [if_neg (by omega)]
  rw [password_blob, read_write_u16 _ hbound, to_wstr_no_null, from_utf16_encode]

/-- C2: extract_password fails with BadEncoding carrying exactly the
stored bytes on every odd-length blob, and on every even-length blob
whose little-endian 16-bit units do not decode strictly as UTF-16; it
never substitutes a lossy string. -/
theorem extract_password_bad_encoding (blob : List Nat) :
    (blob.length % 2 = 1 →
      extract_password (make_platform_credential blob) = .error (.BadEncoding blob)) ∧
    (blob.length % 2 = 0 → from_utf16 (read_u16_into blob) = none →
      extract_password (make_platform_credential blob) = .error (.BadEncoding blob)) := by
  constructor
  · intro hodd
    rw [extract_password]
    simp only [make_platform_credential]
    rw [if_pos (by omega)]
  · intro heven hnone
    rw [extract_password]
    simp only [make_platform_credential]
    rw [if_neg (by omega), hnone]

/-- The malformed even-length blob from the test_bad_password test:
the little-endian bytes of the units D834 DD1E 006D 0075 D800 0069
0063, whose fifth unit is a high surrogate with no companion. -/
def malformed_utf16_bytes : List Nat :=
  [0x34, 0xD8, 0x1E, 0xDD, 0x6d, 0, 0x75, 0, 0, 0xD8, 0x69, 0, 0x63, 0]

/-- Witness for C2 at the two concrete blobs of the test_bad_password
test: the single byte 49 and the malformed surrogate sequence. -/
theorem extract_password_bad_encoding_witness :
    (([49] : List Nat).length % 2 = 1 ∧
      extract_password (make_platform_credential [49]) = .error (.BadEncoding [49])) ∧
    (malformed_utf16_bytes.length % 2 = 0 ∧
      from_utf16 (read_u16_into malformed_utf16_bytes) = none ∧
      extract_password (make_platform_credential malformed_utf16_bytes) =
        .error (.BadEncoding malformed_utf16_bytes)) :=
  ⟨⟨by decide, (extract_password_bad_encoding [49]).1 (by decide)⟩,
   ⟨by decide, by decide,
    (extract_password_bad_encoding malformed_utf16_bytes).2 (by decide) (by decide)⟩⟩

/-- C3 counterexample: with a 514-byte user name, new_with_target with
a supplied non-empty target returns the TooLong error, not an
identity, refuting the unconditional reading of the claim. -/
theorem new_with_target_oversized_user_errors :
    new_with_target (some "tgt") "svc" (longA 514) =
      .error (.TooLong "username" CRED_MAX_USERNAME_LENGTH) ∧
    isOkResult (new_with_target (some "tgt") "svc" (longA 514)) = false := by
  have h1 : (longA 514).utf8ByteSize > CRED_MAX_USERNAME_LENGTH := by
    rw [longA_utf8ByteSize]; decide
  have h2 : new_with_target (some "tgt") "svc" (longA 514) =
      .error (.TooLong "username" CRED_MAX_USERNAME_LENGTH) := by
    rw [new_with_target_some_eq, validate_username_too_long _ _ h1]
  exact ⟨h2, by rw [h2]; rfl⟩

/-- C3 (amended): whenever the constructed identity passes attribute
validation, new_with_target with a supplied non-empty target returns
it with target_name the supplied target verbatim (never synthesized),
username the user, empty target_alias and the provenance comment; with
an absent target it returns the same identity except that target_name
is the synthesized user.service string. -/
theorem new_with_target_built_identity :
    (∀ target service user : String, target ≠ "" →
      validate_attributes ⟨user, target, "", metadata service user⟩ "" = .ok () →
      new_with_target (some target) service user =
        .ok ⟨user, target, "", metadata service user⟩) ∧
    (∀ service user : String,
      validate_attributes ⟨user, user ++ "." ++ service, "", metadata service user⟩ "" = .ok () →
      new_with_target none service user =
        .ok ⟨user, user ++ "." ++ service, "", metadata service user⟩) := by
  constructor
  · intro target service user _ hval
    rw [new_with_target_some_eq, hval]
  · intro service user hval
    rw [new_with_target_none_eq, hval]

/-- Witness for C3 at concrete inputs on both branches. -/
theorem new_with_target_built_identity_witness :
    (("tgt" : String) ≠ "" ∧
      validate_attributes ⟨"usr", "tgt", "", metadata "svc" "usr"⟩ "" = .ok () ∧
      new_with_target (some "tgt") "svc" "usr" = .ok ⟨"usr", "tgt", "", metadata "svc" "usr"⟩) ∧
    (validate_attributes ⟨"usr", "usr" ++ "." ++ "svc", "", metadata "svc" "usr"⟩ "" = .ok () ∧
      new_with_target none "svc" "usr" =
        .ok ⟨"usr", "usr" ++ "." ++ "svc", "", metadata "svc" "usr"⟩) :=
  ⟨⟨by decide, by decide,
    new_with_target_built_identity.1 "tgt" "svc" "usr" (by decide) (by decide)⟩,
   ⟨by decide, new_with_target_built_identity.2 "svc" "usr" (by decide)⟩⟩

/-- C4 counterexample: with an explicitly empty target and a 514-byte
user name, new_with_target reports TooLong for the username, not
Invalid, because the username length check precedes the empty-target
check. -/
theorem new_with_target_empty_target_oversized_user :
    new_with_target (some "") "svc" (longA 514) =
      .error (.TooLong "username" CRED_MAX_USERNAME_LENGTH) ∧
    isInvalidResult (new_with_target (some "") "svc" (longA 514)) = false := by
  have h1 : (longA 514).utf8ByteSize > CRED_MAX_USERNAME_LENGTH := by
    rw [longA_utf8ByteSize]; decide
  have h2 : new_with_target (some "") "svc" (longA 514) =
      .error (.TooLong "username" CRED_MAX_USERNAME_LENGTH) := by
    rw [new_with_target_some_eq, validate_username_too_long _ _ h1]
  exact ⟨h2, by rw [h2]; rfl⟩

/-- C4 (amended): with an explicitly empty target, new_with_target
returns the Invalid error whenever the username is within its length
limit (the only rule checked earlier); an absent target instead
triggers synthesis, per the C3 and C5 theorems. -/
theorem new_with_target_empty_target_invalid (service user : String)
    (h : user.utf8ByteSize ≤ CRED_MAX_USERNAME_LENGTH) :
    new_with_target (some "") service user =
      .error (.Invalid "target" "cannot be empty") := by
  rw [new_with_target_some_eq,
    validate_empty_target ⟨user, "", "", metadata service user⟩ "" h (by rfl)]

/-- Witness for C4 at a concrete service and user. -/
theorem new_with_target_empty_target_invalid_witness :
    ("usr" : String).utf8ByteSize ≤ CRED_MAX_USERNAME_LENGTH ∧
    new_with_target (some "") "svc" "usr" = .error (.Invalid "target" "cannot be empty") :=
  ⟨by decide, new_with_target_empty_target_invalid "svc" "usr" (by decide)⟩

/-- C5 counterexample: new_with_target with an absent target succeeds
with an empty user and with an empty service; it does not return
Invalid, because the synthesized target name always contains the dot
separator. -/
theorem new_with_target_empty_attributes_ok :
    new_with_target none "service" "" =
      .ok ⟨"", "" ++ "." ++ "service", "", metadata "service" ""⟩ ∧
    isInvalidResult (new_with_target none "service" "") = false ∧
    new_with_target none "" "user" =
      .ok ⟨"user", "user" ++ "." ++ "", "", metadata "" "user"⟩ ∧
    isInvalidResult (new_with_target none "" "user") = false := by
  refine ⟨by decide, by decide, by decide, by decide⟩

/-- C5 (amended): new_with_target with an absent target never returns
the Invalid error, for any service and user, empty ones included: the
synthesized target name user.service is never empty. -/
theorem new_with_target_none_never_invalid (service user : String) :
    isInvalidResult (new_with_target none service user) = false := by
  have hne : (user ++ "." ++ service).isEmpty = false := append_dot_isEmpty user service
  rw [new_with_target_none_eq, validate_attributes]
  split_ifs with h1 h2 h3 h4 h5 h6
  · rfl
  · rw [hne] at h2; cases h2
  · rfl
  · rfl
  · rfl
  · rfl
  · rfl

/-- C6: evaluating the validator with each bounded field exactly one
byte over its limit (all other fields within limits) yields TooLong
with the limit and the field name the code uses, and set_password
issues no vault call.  Note the field name the code attaches to the
target_name rule is the string target, while the test_bad_inputs test
of windows.rs expects the string target name for that rule: the last
conjunct records that these differ, which is the divergence behind
this claim. -/
theorem validate_too_long_each_field :
    validate_attributes ⟨longA 514, "t", "", ""⟩ "" =
      .error (.TooLong "username" CRED_MAX_USERNAME_LENGTH) ∧
    validate_attributes ⟨"u", longA 32768, "", ""⟩ "" =
      .error (.TooLong "target" CRED_MAX_GENERIC_TARGET_NAME_LENGTH) ∧
    validate_attributes ⟨"u", "t", longA 257, ""⟩ "" =
      .error (.TooLong "target alias" CRED_MAX_STRING_LENGTH) ∧
    validate_attributes ⟨"u", "t", "", longA 257⟩ "" =
      .error (.TooLong "comment" CRED_MAX_STRING_LENGTH) ∧
    validate_attributes ⟨"u", "t", "", ""⟩ (longA 2561) =
      .error (.TooLong "password" CRED_MAX_CREDENTIAL_BLOB_SIZE) ∧
    (∀ write_result, set_password ⟨"u", longA 32768, "", ""⟩ "pw" write_result =
      (.error (.TooLong "target" CRED_MAX_GENERIC_TARGET_NAME_LENGTH), [])) ∧
    (("target" : String) == "target name") = false := by
  have hbig := longA_utf8ByteSize
  have htgt : validate_attributes ⟨"u", longA 32768, "", ""⟩ "pw" =
      .error (.TooLong "target" CRED_MAX_GENERIC_TARGET_NAME_LENGTH) :=
    validate_target_too_long _ _ (by decide) (longA_isEmpty _ (by decide))
      (by rw [hbig]; decide)
  refine ⟨?_, ?_, ?_, ?_, ?_, ?_, by decide⟩
  · exact validate_username_too_long _ _ (by rw [hbig]; decide)
  · exact validate_target_too_long _ _ (by decide) (longA_isEmpty _ (by decide))
      (by rw [hbig]; decide)
  · exact validate_alias_too_long _ _ (by decide) (by decide) (by decide)
      (by rw [hbig]; decide)
  · exact validate_comment_too_long _ _ (by decide) (by decide) (by decide) (by decide)
      (by rw [hbig]; decide)
  · exact validate_password_too_long _ _ (by decide) (by decide) (by decide) (by decide)
      (by decide) (by rw [hbig]; decide)
  · intro write_result
    rw [set_password, htgt]

end Keyring

namespace Keyring

/-- C7: the validator runs before every vault call.  Part one settles
the first-failing-rule order (username, then target_name emptiness and
length, then target_alias, comment, secret, with no aggregation); part
two shows a failed validation makes set_password return that error
with an empty vault-call trace; part three shows the same for
delete_password, get_password and get_credential, which validate with
an empty secret placeholder. -/
theorem validator_gates_every_operation :
    (∀ (cred : WinCredential) (password : String),
      (cred.username.utf8ByteSize > CRED_MAX_USERNAME_LENGTH →
        validate_attributes cred password =
          .error (.TooLong "username" CRED_MAX_USERNAME_LENGTH)) ∧
      (cred.username.utf8ByteSize ≤ CRED_MAX_USERNAME_LENGTH →
        cred.target_name.isEmpty = true →
        validate_attributes cred password = .error (.Invalid "target" "cannot be empty")) ∧
      (cred.username.utf8ByteSize ≤ CRED_MAX_USERNAME_LENGTH →
        cred.target_name.isEmpty = false →
        cred.target_name.utf8ByteSize > CRED_MAX_GENERIC_TARGET_NAME_LENGTH →
        validate_attributes cred password =
          .error (.TooLong "target" CRED_MAX_GENERIC_TARGET_NAME_LENGTH)) ∧
      (cred.username.utf8ByteSize ≤ CRED_MAX_USERNAME_LENGTH →
        cred.target_name.isEmpty = false →
        cred.target_name.utf8ByteSize ≤ CRED_MAX_GENERIC_TARGET_NAME_LENGTH →
        cred.target_alias.utf8ByteSize > CRED_MAX_STRING_LENGTH →
        validate_attributes cred password =
          .error (.TooLong "target alias" CRED_MAX_STRING_LENGTH)) ∧
      (cred.username.utf8ByteSize ≤ CRED_MAX_USERNAME_LENGTH →
        cred.target_name.isEmpty = false →
        cred.target_name.utf8ByteSize ≤ CRED_MAX_GENERIC_TARGET_NAME_LENGTH →
        cred.target_alias.utf8ByteSize ≤ CRED_MAX_STRING_LENGTH →
        cred.comment.utf8ByteSize > CRED_MAX_STRING_LENGTH →
        validate_attributes cred password =
          .error (.TooLong "comment" CRED_MAX_STRING_LENGTH)) ∧
      (cred.username.utf8ByteSize ≤ CRED_MAX_USERNAME_LENGTH →
        cred.target_name.isEmpty = false →
        cred.target_name.utf8ByteSize ≤ CRED_MAX_GENERIC_TARGET_NAME_LENGTH →
        cred.target_alias.utf8ByteSize ≤ CRED_MAX_STRING_LENGTH →
        cred.comment.utf8ByteSize ≤ CRED_MAX_STRING_LENGTH →
        password.utf8ByteSize > CRED_MAX_CREDENTIAL_BLOB_SIZE →
        validate_attributes cred password =
          .error (.TooLong "password" CRED_MAX_CREDENTIAL_BLOB_SIZE)) ∧
      (cred.username.utf8ByteSize ≤ CRED_MAX_USERNAME_LENGTH →
        cred.target_name.isEmpty = false →
        cred.target_name.utf8ByteSize ≤ CRED_MAX_GENERIC_TARGET_NAME_LENGTH →
        cred.target_alias.utf8ByteSize ≤ CRED_MAX_STRING_LENGTH →
        cred.comment.utf8ByteSize ≤ CRED_MAX_STRING_LENGTH →
        password.utf8ByteSize ≤ CRED_MAX_CREDENTIAL_BLOB_SIZE →
        validate_attributes cred password = .ok ())) ∧
    (∀ (cred : WinCredential) (password : String) (e : ErrorCode),
      validate_attributes cred password = .error e →
      ∀ write_result, set_password cred password write_result = (.error e, [])) ∧
    (∀ (cred : WinCredential) (e : ErrorCode),
      validate_attributes cred "" = .error e →
      (∀ delete_result, delete_password cred delete_result = (.error e, [])) ∧
      (∀ read_result, get_password cred read_result = (.error e, [])) ∧
      (∀ read_result, get_credential cred read_result = (.error e, []))) :=
  ⟨fun cred password =>
    ⟨validate_username_too_long cred password,
     validate_empty_target cred password,
     validate_target_too_long cred password,
     validate_alias_too_long cred password,
     validate_comment_too_long cred password,
     validate_password_too_long cred password,
     validate_ok cred password⟩,
   fun cred password e h => set_password_gated cred password e h,
   fun cred e h =>
    ⟨delete_password_gated cred e h,
     get_password_gated cred e h,
     get_credential_gated cred e h⟩⟩

/-- Witness for C7: a credential with an empty target name is rejected
by the validator, every operation returns that error with an empty
vault-call trace, and a small credential validates successfully. -/
theorem validator_gates_every_operation_witness :
    validate_attributes ⟨"u", "", "", ""⟩ "p" = .error (.Invalid "target" "cannot be empty") ∧
    set_password ⟨"u", "", "", ""⟩ "p" none =
      (.error (.Invalid "target" "cannot be empty"), []) ∧
    delete_password ⟨"u", "", "", ""⟩ none =
      (.error (.Invalid "target" "cannot be empty"), []) ∧
    get_password ⟨"u", "", "", ""⟩ (.error 1168) =
      (.error (.Invalid "target" "cannot be empty"), []) ∧
    get_credential ⟨"u", "", "", ""⟩ (.error 1168) =
      (.error (.Invalid "target" "cannot be empty"), []) ∧
    validate_attributes ⟨"u", "t", "", ""⟩ "p" = .ok () := by
  have hp := (validator_gates_every_operation.1 ⟨"u", "", "", ""⟩ "p").2.1
    (by decide) (by rfl)
  have h0 := (validator_gates_every_operation.1 ⟨"u", "", "", ""⟩ "").2.1
    (by decide) (by rfl)
  have hgate := validator_gates_every_operation.2.2 ⟨"u", "", "", ""⟩ _ h0
  exact ⟨hp,
    validator_gates_every_operation.2.1 ⟨"u", "", "", ""⟩ "p" _ hp none,
    hgate.1 none,
    hgate.2.1 (.error 1168),
    hgate.2.2 (.error 1168),
    (validator_gates_every_operation.1 ⟨"u", "t", "", ""⟩ "p").2.2.2.2.2.2
      (by decide) (by decide) (by decide) (by decide) (by decide) (by decide)⟩

/-- C8: for a credential that validates, a successful vault lookup
makes get_password and get_credential issue exactly one CredRead
followed by exactly one CredFree, whatever the extractor returns
(decode success or failure alike), and a failed lookup issues the
CredRead but no CredFree. -/
theorem read_releases_exactly_once (cred : WinCredential)
    (hval : validate_attributes cred "" = .ok ()) :
    (∀ w : CREDENTIALW,
      get_password cred (.ok w) =
        (extract_password w, [.credRead (to_wstr cred.target_name), .credFree]) ∧
      get_credential cred (.ok w) =
        (extract_credential w, [.credRead (to_wstr cred.target_name), .credFree]) ∧
      free_count (get_password cred (.ok w)).2 = 1 ∧
      free_count (get_credential cred (.ok w)).2 = 1) ∧
    (∀ code : Nat,
      get_password cred (.error code) =
        (.error (decode_error code), [.credRead (to_wstr cred.target_name)]) ∧
      get_credential cred (.error code) =
        (.error (decode_error code), [.credRead (to_wstr cred.target_name)]) ∧
      free_count (get_password cred (.error code)).2 = 0 ∧
      free_count (get_credential cred (.error code)).2 = 0) := by
  constructor
  · intro w
    have h1 := extract_from_platform_ok cred extract_password w hval
    have h2 := extract_from_platform_ok cred extract_credential w hval
    exact ⟨h1, h2, by rw [get_password, h1]; rfl, by rw [get_credential, h2]; rfl⟩
  · intro code
    have h1 := extract_from_platform_err cred extract_password code hval
    have h2 := extract_from_platform_err cred extract_credential code hval
    exact ⟨h1, h2, by rw [get_password, h1]; rfl, by rw [get_credential, h2]; rfl⟩

/-- Witness for C8 at a concrete credential and a blob that fails to
decode, showing the free also happens on the decode-failure path. -/
theorem read_releases_exactly_once_witness :
    (get_password ⟨"u", "t", "", ""⟩ (.ok (make_platform_credential [49])) =
      (extract_password (make_platform_credential [49]),
        [.credRead (to_wstr "t"), .credFree])) ∧
    free_count (get_password ⟨"u", "t", "", ""⟩ (.ok (make_platform_credential [49]))).2 = 1 ∧
    free_count (get_credential ⟨"u", "t", "", ""⟩ (.ok (make_platform_credential [49]))).2 = 1 ∧
    free_count (get_password ⟨"u", "t", "", ""⟩ (.error 5)).2 = 0 :=
  ⟨((read_releases_exactly_once ⟨"u", "t", "", ""⟩ (by decide)).1
      (make_platform_credential [49])).1,
   ((read_releases_exactly_once ⟨"u", "t", "", ""⟩ (by decide)).1
      (make_platform_credential [49])).2.2.1,
   ((read_releases_exactly_once ⟨"u", "t", "", ""⟩ (by decide)).1
      (make_platform_credential [49])).2.2.2,
   ((read_releases_exactly_once ⟨"u", "t", "", ""⟩ (by decide)).2 5).2.2.1⟩

/-- C9: the failing-call status code is translated with the not-found
code mapping to NoEntry, the no-such-logon-session code to
NoStorageAccess wrapping that code, and every other code to
PlatformFailure wrapping it; the rendering of a wrapped code is the
fixed descriptive string for each named constant and the numeric
rendering for all other codes. -/
theorem decode_error_translates_last_error :
    decode_error ERROR_NOT_FOUND = .NoEntry ∧
    decode_error ERROR_NO_SUCH_LOGON_SESSION =
      .NoStorageAccess ERROR_NO_SUCH_LOGON_SESSION ∧
    (∀ code : Nat, code ≠ ERROR_NOT_FOUND → code ≠ ERROR_NO_SUCH_LOGON_SESSION →
      decode_error code = .PlatformFailure code) ∧
    error_message ERROR_NO_SUCH_LOGON_SESSION = "Windows ERROR_NO_SUCH_LOGON_SESSION" ∧
    error_message ERROR_NOT_FOUND = "Windows ERROR_NOT_FOUND" ∧
    error_message ERROR_BAD_USERNAME = "Windows ERROR_BAD_USERNAME" ∧
    error_message ERROR_INVALID_FLAGS = "Windows ERROR_INVALID_FLAGS" ∧
    error_message ERROR_INVALID_PARAMETER = "Windows ERROR_INVALID_PARAMETER" ∧
    (∀ code : Nat, code ≠ ERROR_NO_SUCH_LOGON_SESSION → code ≠ ERROR_NOT_FOUND →
      code ≠ ERROR_BAD_USERNAME → code ≠ ERROR_INVALID_FLAGS →
      code ≠ ERROR_INVALID_PARAMETER →
      error_message code = "Windows error code " ++ toString code) := by
  refine ⟨by decide, by decide, ?_, by decide, by decide, by decide, by decide, by decide, ?_⟩
  · intro code h1 h2
    rw [decode_error, if_neg h1, if_neg h2]
  · intro code h1 h2 h3 h4 h5
    rw [error_message, if_neg h1, if_neg h2, if_neg h3, if_neg h4, if_neg h5]

/-- Witness for C9 at the unknown code 31. -/
theorem decode_error_translates_last_error_witness :
    ((31 : Nat) ≠ ERROR_NOT_FOUND ∧ (31 : Nat) ≠ ERROR_NO_SUCH_LOGON_SESSION ∧
      decode_error 31 = .PlatformFailure 31) ∧
    ((31 : Nat) ≠ ERROR_BAD_USERNAME ∧ (31 : Nat) ≠ ERROR_INVALID_FLAGS ∧
      (31 : Nat) ≠ ERROR_INVALID_PARAMETER ∧
      error_message 31 = "Windows error code " ++ toString 31) :=
  ⟨⟨by decide, by decide,
    decode_error_translates_last_error.2.2.1 31 (by decide) (by decide)⟩,
   ⟨by decide, by decide, by decide,
    decode_error_translates_last_error.2.2.2.2.2.2.2.2 31 (by decide) (by decide)
      (by decide) (by decide) (by decide)⟩⟩

/-- C10: full-identity extraction is total: a null native string
pointer yields the empty string, extract_credential always returns an
identity built by the lossy field decoder and never an error, and the
lossy decoder agrees with the strict one whenever the strict one
succeeds (diverging only by substituting replacement characters where
the strict one would fail). -/
theorem extract_credential_always_identity :
    from_wstr none = "" ∧
    (∀ w : CREDENTIALW, extract_credential w = .ok
      ⟨from_wstr w.UserName, from_wstr w.TargetName,
        from_wstr w.TargetAlias, from_wstr w.Comment⟩) ∧
    (∀ (units : List Nat) (cs : List Char),
      from_utf16 units = some cs → from_utf16_lossy units = cs) :=
  ⟨rfl, fun _ => rfl, from_utf16_lossy_agrees⟩

/-- Witness for C10 at a concrete valid unit list. -/
theorem extract_credential_always_identity_witness :
    from_utf16 [0x61, 0x62] = some ['a', 'b'] ∧ from_utf16_lossy [0x61, 0x62] = ['a', 'b'] :=
  ⟨by decide, extract_credential_always_identity.2.2 [0x61, 0x62] ['a', 'b'] (by decide)⟩

end Keyring
